import Mathlib

/-!
Shallow embedding of the geospatial scoring engine of `src/scorer/scorer.py`
(class `Scorer`), checked against the repository's natural-language spec.

Modelling conventions:
- Projected points (EPSG:2263, meters) are pairs of rationals `Pt := ℚ × ℚ`.
- `shapely`'s `point.buffer(r)` followed by `.intersects` is modelled by its
  documented semantics, the closed disk of radius `r` (membership decided on
  squared distances, so everything stays in exact rational arithmetic).
- The Euclidean distance that geopandas records in the
  `distance_to_subway_m` column is generally irrational, so the pipeline
  takes the metric as an explicit function parameter `d : Pt → Pt → Pt`;
  theorems that need the geometric meaning of `d` assume
  `(d p q) ^ 2 = sqDist p q` and `0 ≤ d p q` for the points involved.
  All comparisons the source performs (nearest-neighbour selection,
  `max_distance` cut-off, buffer membership) are order-isomorphic to the
  squared-distance comparisons used here.
- pandas `NaN` in the restaurant `score` column is `Option.none`; a pandas
  `Series.mean` (which skips NaN and is NaN on an all-NaN series) is
  `seriesMean : List (Option ℚ) → Option ℚ`.
- A raised Python exception is an `Except.error`; the `Scorer` object's
  state is threaded explicitly as `ScorerState`.
-/

abbrev Pt : Type := ℚ × ℚ

/-- Squared Euclidean distance on the projected plane. -/
def sqDist (p q : Pt) : ℚ := (p.1 - q.1) ^ 2 + (p.2 - q.2) ^ 2

/-- A row of `parks_df` after projection: `park_name`, `borough`, `acres`,
`park_type` and the projected geometry. -/
structure Park where
  name : String
  borough : String
  acres : ℚ
  parkType : String
  pos : Pt
  deriving DecidableEq, Repr

/-- A row of `subway_df` after projection; `id` is the dataframe index. -/
structure Station where
  id : ℕ
  stationName : String
  pos : Pt
  deriving DecidableEq, Repr

/-- A row of `restaurants_df` after projection; `score` is the inspection
score column, `none` when the value is NaN. -/
structure Venue where
  id : ℕ
  score : Option ℚ
  pos : Pt
  deriving DecidableEq, Repr

/-- A row of the frame produced by `calculate_park_accessibility`:
the park columns, the joined nearest station (`nearest_station`, the right
index `index_right`, `distance_to_subway_m`), the radius-count columns
`subway_count_{max}m` / `nearby_station_ids`, and `accessibility_score`. -/
structure AccPark where
  name : String
  borough : String
  acres : ℚ
  parkType : String
  pos : Pt
  nearestStation : String
  nearestId : ℕ
  distM : ℚ
  subwayCount : ℕ
  nearbyStationIds : List ℕ
  accessScore : ℚ
  deriving DecidableEq, Repr

/-- A row after `calculate_social_activity` added its columns. -/
structure SocPark extends AccPark where
  restaurantCount : ℕ
  nearbyRestaurantIds : List ℕ
  socialActivityScore : ℚ
  deriving DecidableEq, Repr

/-- A row after `calculate_borough_balance` added `combined_score`. -/
structure BalPark extends SocPark where
  combinedScore : ℚ
  deriving DecidableEq, Repr

/-- A row after `summary` attached the justification; the justification
string is pure formatting, so its numeric components are modelled instead:
`int(distance_to_subway_m)` and the average inspection score. -/
structure JustRow extends BalPark where
  distInt : ℤ
  avgScore : Option ℚ
  deriving DecidableEq, Repr

/-- The dataframe held in `self.parks_with_scores`, at whichever stage of
the pipeline last wrote it. -/
inductive Working where
  | acc (rows : List AccPark)
  | soc (rows : List SocPark)
  | bal (rows : List BalPark)
  | just (rows : List JustRow)
  deriving DecidableEq, Repr

/-- The state of a `Scorer` object: the three projected input frames, the
configuration from `__init__`, and `self.parks_with_scores`
(`none` until `calculate_park_accessibility` runs).
`hasParkTypeColumn` models whether `"park_type" in parks.columns`. -/
structure ScorerState where
  parks : List Park
  restaurants : List Venue
  stations : List Station
  hasParkTypeColumn : Bool
  minParkArea : ℚ
  maxParkDistance : ℚ
  restaurantRadius : ℚ
  parksWithScores : Option Working
  deriving DecidableEq, Repr

/-- `parks.geometry.buffer(r)` + `.intersects`: the sub-collection of
points lying in the closed disk of radius `r` around `c` (membership via
squared distances). Used for both the station and the restaurant counts. -/
def withinRadius {α : Type} (posOf : α → Pt) (items : List α) (c : Pt) (r : ℚ) :
    List α :=
  items.filter (fun x => decide (sqDist (posOf x) c ≤ r ^ 2))

/-- `parks[parks["acres"] >= min_park_area]`. -/
def areaFilter (minArea : ℚ) (parks : List Park) : List Park :=
  parks.filter (fun p => decide (minArea ≤ p.acres))

/-- The fixed exclusion list of `calculate_park_accessibility`
(`exclude_types = ["Playground", "Undeveloped", "Triangle/Plaza"]`);
it is a local constant of the method, not a configuration parameter. -/
def exclude_types : List String := ["Playground", "Undeveloped", "Triangle/Plaza"]

/-- `if "park_type" in parks.columns: parks = parks[~parks["park_type"].isin(exclude_types)]` —
skipped entirely when the column is absent. -/
def typeFilter (hasCol : Bool) (parks : List Park) : List Park :=
  if hasCol then parks.filter (fun p => !(exclude_types.contains p.parkType)) else parks

/-- `sjoin_nearest(subway_gdf, how="left", max_distance=maxD)` restricted to
one park: the station of minimal distance among those within `maxD`,
`none` when there is none (such a park is dropped by the subsequent
`dropna`).  Among exactly equidistant stations the library emits all
matches and `drop_duplicates` keeps the first row; this is modelled as
keeping the first-in-collection minimiser (strict comparison). -/
def nearestStep (p : Pt) (maxD : ℚ) (best : Option Station) (st : Station) :
    Option Station :=
  if sqDist st.pos p ≤ maxD ^ 2 then
    match best with
    | none => some st
    | some b => if sqDist st.pos p < sqDist b.pos p then some st else best
  else best

/-- The nearest-station selection, folded over the station collection. -/
def nearestStation (stations : List Station) (p : Pt) (maxD : ℚ) : Option Station :=
  stations.foldl (nearestStep p maxD) none

/-- `drop_duplicates(subset=key)`: keep the first row for each key. -/
def dropDupAux {α κ : Type} [DecidableEq κ] (key : α → κ) :
    List κ → List α → List α
  | _, [] => []
  | seen, x :: xs =>
    if key x ∈ seen then dropDupAux key seen xs
    else x :: dropDupAux key (key x :: seen) xs

/-- `nearest.drop_duplicates(subset=["park_name", "geometry"])` generalised
over the key. -/
def dropDuplicates {α κ : Type} [DecidableEq κ] (key : α → κ) (l : List α) : List α :=
  dropDupAux key [] l

/-- Lines 81-99 of `scorer.py`: area filter, type filter, nearest join,
duplicate drop (key `park_name` × `geometry`), and the `dropna` that
removes parks with no station within `max_park_distance` (the left join
plus `dropna` is a `filterMap`). -/
def joinedParks (s : ScorerState) : List (Park × Station) :=
  dropDuplicates (fun j => (j.1.name, j.1.pos))
    ((typeFilter s.hasParkTypeColumn (areaFilter s.minParkArea s.parks)).filterMap
      (fun p => (nearestStation s.stations p.pos s.maxParkDistance).map (fun st => (p, st))))

/-- `nearest["distance_to_subway_m"].max()` for the (nonempty) surviving
frame; `0` on the empty frame, where the source's NaN propagates to the
`max_dist > 0` test being false and the score assignment being a no-op. -/
def parkMax (l : List ℚ) : ℚ :=
  match l with
  | [] => 0
  | h :: t => t.foldl max h

/-- Pointwise form of the normalization of lines 128-134. -/
def accessScoreAt (m d : ℚ) : ℚ :=
  if 0 < m then 100 * (1 - d / m) else 100

/-- Lines 128-134 of `scorer.py`: the second (batch-relative) pass.
`max_dist = col.max(); if max_dist > 0: score = 100*(1 - col/max_dist)
else: score = 100`, written pointwise (extensionally identical, see
`accessScores_eq_source`). -/
def accessScores (l : List ℚ) : List ℚ :=
  l.map (accessScoreAt (parkMax l))

/-- One output row of `calculate_park_accessibility` for a joined
park-station pair, given the metric `d` and the batch maximum `m`. -/
def mkAccPark (d : Pt → Pt → ℚ) (s : ScorerState) (m : ℚ) (j : Park × Station) :
    AccPark :=
  { name := j.1.name
    borough := j.1.borough
    acres := j.1.acres
    parkType := j.1.parkType
    pos := j.1.pos
    nearestStation := j.2.stationName
    nearestId := j.2.id
    distM := d j.1.pos j.2.pos
    subwayCount := (withinRadius Station.pos s.stations j.1.pos s.maxParkDistance).length
    nearbyStationIds :=
      (withinRadius Station.pos s.stations j.1.pos s.maxParkDistance).map (·.id)
    accessScore := accessScoreAt m (d j.1.pos j.2.pos) }

/-- `Scorer.calculate_park_accessibility` (lines 60-147): filters, nearest
join, per-park radius counts, batch-relative normalization; stores the
result on `self.parks_with_scores` and returns it. -/
def calcParkAccessibility (d : Pt → Pt → ℚ) (s : ScorerState) :
    ScorerState × List AccPark :=
  let joined := joinedParks s
  let m := parkMax (joined.map (fun j => d j.1.pos j.2.pos))
  let rows := joined.map (mkAccPark d s m)
  ({ s with parksWithScores := some (.acc rows) }, rows)

/-- `GRADE_TRESHOLDS = 20` — the venue quality cut-off is a local constant
of `calculate_social_activity` (the source's spelling is kept), not a
configuration parameter: `__init__` accepts no threshold argument. -/
def GRADE_TRESHOLDS : ℚ := 20

/-- `restaurants_gdf["score"] <= GRADE_TRESHOLDS` for one row: a NaN score
compares false in pandas, so a venue with an absent score never qualifies. -/
def venueQualifies (v : Venue) : Bool :=
  match v.score with
  | some sc => decide (sc ≤ GRADE_TRESHOLDS)
  | none => false

/-- `max()` of the integer restaurant-count column (nonempty case);
`0` on the empty frame, where the assignment is again a no-op. -/
def parkMaxNat (l : List ℕ) : ℕ :=
  match l with
  | [] => 0
  | h :: t => t.foldl max h

/-- Projection of the working frame onto the columns
`calculate_social_activity` reads (they exist at every stage). -/
def Working.toAccRows : Working → List AccPark
  | .acc rows => rows
  | .soc rows => rows.map (·.toAccPark)
  | .bal rows => rows.map (fun r => r.toSocPark.toAccPark)
  | .just rows => rows.map (fun r => r.toBalPark.toSocPark.toAccPark)

/-- `Scorer.calculate_social_activity` (lines 149-201): raises
`ValueError` when `parks_with_scores is None` (before any mutation, so the
state is returned untouched); otherwise filters venues by the hardcoded
threshold, counts them in `restaurant_radius` around each park, and
normalizes by the batch maximum count (`0` for all when the maximum is
`0` — note the asymmetry with the accessibility fallback). -/
def calcSocialActivity (s : ScorerState) :
    ScorerState × Except String (List SocPark) :=
  match s.parksWithScores with
  | none => (s, .error "Run calculate_park_accessibility() first")
  | some w =>
    let parks := w.toAccRows
    let good := s.restaurants.filter venueQualifies
    let counts := parks.map
      (fun p => (withinRadius Venue.pos good p.pos s.restaurantRadius).length)
    let maxCount := parkMaxNat counts
    let rows := parks.map (fun p =>
      { toAccPark := p
        restaurantCount := (withinRadius Venue.pos good p.pos s.restaurantRadius).length
        nearbyRestaurantIds :=
          (withinRadius Venue.pos good p.pos s.restaurantRadius).map (·.id)
        socialActivityScore :=
          if 0 < maxCount then
            100 * ((withinRadius Venue.pos good p.pos s.restaurantRadius).length : ℚ)
              / (maxCount : ℚ)
          else 0 })
    ({ s with parksWithScores := some (.soc rows) }, .ok rows)

/-- The social-activity columns of the working frame, where present
(`calculate_borough_balance` reads `accessibility_score` and
`social_activity_score`; on an accessibility-stage frame the latter column
is missing and pandas raises `KeyError`). -/
def Working.toSocRows : Working → Option (List SocPark)
  | .acc _ => none
  | .soc rows => some rows
  | .bal rows => some (rows.map (·.toSocPark))
  | .just rows => some (rows.map (fun r => r.toBalPark.toSocPark))

/-- Stable insertion of a row into a list sorted by `combined_score`
descending: ties keep the earlier row first (pandas `nlargest`,
`keep="first"`). -/
def insertDesc (x : BalPark) : List BalPark → List BalPark
  | [] => [x]
  | y :: ys =>
    if x.combinedScore ≤ y.combinedScore then y :: insertDesc x ys
    else x :: y :: ys

/-- Stable descending sort by `combined_score`. -/
def sortDesc (l : List BalPark) : List BalPark :=
  l.foldl (fun acc x => insertDesc x acc) []

/-- `x.nlargest(top_n, "combined_score")`. -/
def nlargest (n : ℕ) (l : List BalPark) : List BalPark :=
  (sortDesc l).take n

/-- Ordered insertion for the group keys (pandas `groupby` sorts the keys
ascending). -/
def insertStr (x : String) : List String → List String
  | [] => [x]
  | y :: ys => if x ≤ y then x :: y :: ys else y :: insertStr x ys

/-- Lexicographically sorted list of the distinct borough keys, as
`groupby("borough_left")` enumerates the groups. -/
def boroughKeys (rows : List BalPark) : List String :=
  ((rows.map (·.borough)).eraseDups).foldr insertStr []

/-- `Scorer.calculate_borough_balance` (lines 203-233): raises
`ValueError` when `parks_with_scores is None`; otherwise computes
`combined_score = (accessibility_score + social_activity_score) / 2`,
selects the top `top_n` rows per borough, stores that truncated frame on
`self.parks_with_scores` — and then returns `parks`, the full
pre-truncation frame (source line 233 `return parks`). -/
def calcBoroughBalance (topN : ℕ) (s : ScorerState) :
    ScorerState × Except String (List BalPark) :=
  match s.parksWithScores with
  | none =>
    (s, .error "Run calculate_park_accessibility() and calculate_social_activity() first")
  | some w =>
    match w.toSocRows with
    | none => (s, .error "KeyError: social_activity_score")
    | some socRows =>
      let parks : List BalPark := socRows.map (fun p =>
        { toSocPark := p
          combinedScore := (p.accessScore + p.socialActivityScore) / 2 })
      let balanced := (boroughKeys parks).flatMap
        (fun b => nlargest topN (parks.filter (fun p => p.borough == b)))
      ({ s with parksWithScores := some (.bal balanced) }, .ok parks)

/-- `Series.mean()` of a score column: NaN entries are skipped, and the
mean of an all-NaN (or empty) column is NaN (`none`). -/
def seriesMean (l : List (Option ℚ)) : Option ℚ :=
  let xs := l.filterMap id
  if xs.length = 0 then none else some (xs.sum / (xs.length : ℚ))

/-- Python `int()` applied to a rational: truncation toward zero. -/
def pyInt (q : ℚ) : ℤ :=
  if 0 ≤ q then ⌊q⌋ else -⌊-q⌋

/-- Lines 265-272 of `scorer.py`: the average inspection score reported in
a park's justification.  The buffer query runs against
`self.restaurants_gdf` — the full restaurant frame, with no quality
threshold applied — and the mean is `0` only when no restaurant at all
lies within the radius. -/
def summaryAvgScore (restaurants : List Venue) (c : Pt) (r : ℚ) : Option ℚ :=
  let nearby := withinRadius Venue.pos restaurants c r
  if nearby.length = 0 then some 0 else seriesMean (nearby.map (·.score))

/-- `Scorer.summary` (lines 243-285): runs the three stages, then builds a
justification for every row of the frame `calculate_borough_balance`
*returned* (its full pre-truncation frame), stores the justified frame on
`self.parks_with_scores`, and returns it.  The justification string is
modelled by its numeric components `distInt` and `avgScore`. -/
def summary (d : Pt → Pt → ℚ) (s : ScorerState) (topN : ℕ) :
    ScorerState × Except String (List JustRow) :=
  let s1 := (calcParkAccessibility d s).1
  let r2 := calcSocialActivity s1
  match r2.2 with
  | .error e => (r2.1, .error e)
  | .ok _ =>
    let r3 := calcBoroughBalance topN r2.1
    match r3.2 with
    | .error e => (r3.1, .error e)
    | .ok balancedParks =>
      let rows := balancedParks.map (fun p =>
        { toBalPark := p
          distInt := pyInt p.distM
          avgScore := summaryAvgScore r3.1.restaurants p.pos r3.1.restaurantRadius })
      ({ r3.1 with parksWithScores := some (.just rows) }, .ok rows)

/-- The rows of a successful result (`[]` for an error). -/
def okRows {α : Type} : Except String (List α) → List α
  | .ok l => l
  | .error _ => []

/-- The venue-qualification rule as the claim (and §4.4 / §6 of the spec)
states it: the threshold `T` is caller-supplied, and a venue qualifies
exactly when its quality score is present and `≤ T`.  Stated from the
claim's words, for comparison with the source's `venueQualifies`. -/
def claimVenueQualifies (T : ℚ) (v : Venue) : Bool :=
  match v.score with
  | some sc => decide (sc ≤ T)
  | none => false

/-- The justification mean as the claim (and §4.6 of the spec) states it:
the mean quality score of the nearby *qualifying* venues only, `0` when
there are none.  Stated from the claim's words, for comparison with the
source's `summaryAvgScore`. -/
def claimAvgQualifying (T : ℚ) (venues : List Venue) (c : Pt) (r : ℚ) : Option ℚ :=
  let q := withinRadius Venue.pos (venues.filter (claimVenueQualifies T)) c r
  if q.length = 0 then some 0 else seriesMean (q.map (·.score))

/-- A metric usable for concrete runs whose points share a `y` coordinate
(there `|Δx|` is the Euclidean distance). -/
def colinearDist : Pt → Pt → ℚ := fun p q => |p.1 - q.1|

/-- Concrete run for the Borough Balancer claims: two Bronx parks, one
station, `top_n_per_borough = 1`. -/
def c1State : ScorerState :=
  { parks := [⟨"Alpha Park", "Bronx", 10, "Neighborhood Park", (100, 0)⟩,
              ⟨"Beta Park", "Bronx", 10, "Neighborhood Park", (300, 0)⟩]
    restaurants := []
    stations := [⟨0, "Grand St", (0, 0)⟩]
    hasParkTypeColumn := true
    minParkArea := 5
    maxParkDistance := 500
    restaurantRadius := 500
    parksWithScores := none }

/-- Concrete run in which exactly one site survives filtering, 300 m from
the only station. -/
def c2State : ScorerState :=
  { parks := [⟨"Solo Park", "Queens", 10, "Neighborhood Park", (300, 0)⟩]
    restaurants := []
    stations := [⟨0, "Grand St", (0, 0)⟩]
    hasParkTypeColumn := true
    minParkArea := 5
    maxParkDistance := 500
    restaurantRadius := 500
    parksWithScores := none }

/-- The single surviving row `calculate_park_accessibility` produces on
`c2State`: 1 station within 500 m, and `accessibility_score = 0` because
the batch maximum distance is the site's own 300 m. -/
def c2Row : AccPark :=
  ⟨"Solo Park", "Queens", 10, "Neighborhood Park", (300, 0),
   "Grand St", 0, 300, 1, [0], 0⟩

/-- A station lying exactly on the boundary of a radius-5 query disk
around the origin (3-4-5 triangle, so its distance is exactly 5). -/
def c6Station : Station := ⟨0, "Boundary St", (3, 4)⟩

/-! ## Theorems -/

/-- The column-level `if` of source lines 128-134 equals the pointwise
form used in the row construction. -/
theorem accessScores_eq_source (l : List ℚ) :
    accessScores l =
      if 0 < parkMax l then l.map (fun d => 100 * (1 - d / parkMax l))
      else l.map (fun _ => 100) := by
  unfold accessScores accessScoreAt
  by_cases h : 0 < parkMax l <;> simp [h]

/-- The accessibility column of the stage output is exactly the
column-level normalization of the distance column. -/
theorem calcParkAccessibility_score_col (d : Pt → Pt → ℚ) (s : ScorerState) :
    ((calcParkAccessibility d s).2).map (·.accessScore) =
      accessScores ((joinedParks s).map (fun j => d j.1.pos j.2.pos)) := by
  unfold calcParkAccessibility accessScores
  simp [mkAccPark, List.map_map, Function.comp]

theorem foldl_max_left (t : List ℚ) : ∀ a : ℚ, a ≤ t.foldl max a := by
  induction t with
  | nil => intro a; simp
  | cons h t ih =>
    intro a
    calc a ≤ max a h := le_max_left a h
    _ ≤ t.foldl max (max a h) := ih (max a h)

theorem mem_le_foldl_max (t : List ℚ) : ∀ (a b : ℚ), b ∈ t → b ≤ t.foldl max a := by
  induction t with
  | nil => intro a b hb; simp at hb
  | cons h t ih =>
    intro a b hb
    rcases List.mem_cons.mp hb with rfl | hb'
    · calc b ≤ max a b := le_max_right a b
      _ ≤ t.foldl max (max a b) := foldl_max_left t (max a b)
    · exact ih (max a h) b hb'

theorem foldl_max_eq_or_mem (t : List ℚ) : ∀ a : ℚ, t.foldl max a = a ∨ t.foldl max a ∈ t := by
  induction t with
  | nil => intro a; left; rfl
  | cons h t ih =>
    intro a
    rcases ih (max a h) with h1 | h1
    · rcases max_choice a h with h2 | h2
      · left; rw [List.foldl_cons, h1, h2]
      · right; rw [List.foldl_cons, h1, h2]; exact List.mem_cons_self h t
    · right; exact List.mem_cons_of_mem h h1

/-- For a nonempty column, `parkMax` is attained by an element. -/
theorem parkMax_mem (l : List ℚ) (hl : l ≠ []) : parkMax l ∈ l := by
  match l with
  | [] => exact absurd rfl hl
  | h :: t =>
    have hpm : parkMax (h :: t) = t.foldl max h := rfl
    rw [hpm]
    rcases foldl_max_eq_or_mem t h with h1 | h1
    · rw [h1]; exact List.mem_cons_self h t
    · exact List.mem_cons_of_mem h h1

/-- `parkMax` bounds every element of the column. -/
theorem parkMax_ub (l : List ℚ) (b : ℚ) (hb : b ∈ l) : b ≤ parkMax l := by
  match l with
  | h :: t =>
    have hpm : parkMax (h :: t) = t.foldl max h := rfl
    rw [hpm]
    rcases List.mem_cons.mp hb with rfl | hb'
    · exact foldl_max_left t b
    · exact mem_le_foldl_max t h b hb'

/-- One step of the nearest-station fold either keeps the accumulator or
switches to the new station, and then only if that station is within the
distance limit. -/
theorem nearestStep_cases (p : Pt) (maxD : ℚ) (acc : Option Station) (st : Station) :
    nearestStep p maxD acc st = acc ∨
      (nearestStep p maxD acc st = some st ∧ sqDist st.pos p ≤ maxD ^ 2) := by
  cases acc with
  | none =>
    by_cases hb : sqDist st.pos p ≤ maxD ^ 2
    · right; exact ⟨by simp [nearestStep, hb], hb⟩
    · left; simp [nearestStep, hb]
  | some b =>
    by_cases hb : sqDist st.pos p ≤ maxD ^ 2
    · by_cases hlt : sqDist st.pos p < sqDist b.pos p
      · right; exact ⟨by simp [nearestStep, hb, hlt], hb⟩
      · left; simp [nearestStep, hb, hlt]
    · left; simp [nearestStep, hb]

theorem foldl_nearest (p : Pt) (maxD : ℚ) :
    ∀ (l : List Station) (acc : Option Station) (st : Station),
      l.foldl (nearestStep p maxD) acc = some st →
      acc = some st ∨ (st ∈ l ∧ sqDist st.pos p ≤ maxD ^ 2) := by
  intro l
  induction l with
  | nil => intro acc st h; left; exact h
  | cons x xs ih =>
    intro acc st h
    rw [List.foldl_cons] at h
    rcases ih (nearestStep p maxD acc x) st h with h1 | h2
    · rcases nearestStep_cases p maxD acc x with hk | ⟨hs, hb⟩
      · left; rw [← hk]; exact h1
      · have hx : some x = some st := by rw [← hs, h1]
        have hx' : x = st := by injection hx
        subst hx'
        right
        exact ⟨List.mem_cons_self x xs, hb⟩
    · right; exact ⟨List.mem_cons_of_mem x h2.1, h2.2⟩

/-- A selected nearest station belongs to the station collection and lies
within the `max_park_distance` limit. -/
theorem nearestStation_bound (stations : List Station) (p : Pt) (maxD : ℚ)
    (st : Station) (h : nearestStation stations p maxD = some st) :
    st ∈ stations ∧ sqDist st.pos p ≤ maxD ^ 2 := by
  rcases foldl_nearest p maxD stations none st h with h1 | h2
  · exact absurd h1 (by simp)
  · exact h2

theorem mem_of_mem_dropDupAux {α κ : Type} [DecidableEq κ] (key : α → κ) :
    ∀ (l : List α) (seen : List κ) (x : α), x ∈ dropDupAux key seen l → x ∈ l := by
  intro l
  induction l with
  | nil => intro seen x h; simp [dropDupAux] at h
  | cons y ys ih =>
    intro seen x h
    unfold dropDupAux at h
    by_cases hk : key y ∈ seen
    · rw [if_pos hk] at h
      exact List.mem_cons_of_mem y (ih seen x h)
    · rw [if_neg hk] at h
      rcases List.mem_cons.mp h with rfl | h'
      · exact List.mem_cons_self x ys
      · exact List.mem_cons_of_mem y (ih (key y :: seen) x h')

/-- `drop_duplicates` only removes rows. -/
theorem mem_of_mem_dropDuplicates {α κ : Type} [DecidableEq κ] (key : α → κ)
    (l : List α) (x : α) (h : x ∈ dropDuplicates key l) : x ∈ l :=
  mem_of_mem_dropDupAux key l [] x h

/-- C5: invoking `calculate_social_activity` or `calculate_borough_balance`
before `calculate_park_accessibility` has populated
`self.parks_with_scores` raises the guarding `ValueError` immediately, and
the state (in particular the working set) is returned unchanged — the
raise happens before any mutation. -/
theorem C5_ordering_error (s : ScorerState) (n : ℕ)
    (h : s.parksWithScores = none) :
    calcSocialActivity s =
      (s, Except.error "Run calculate_park_accessibility() first") ∧
    calcBoroughBalance n s =
      (s, Except.error
        "Run calculate_park_accessibility() and calculate_social_activity() first") := by
  constructor
  · unfold calcSocialActivity; rw [h]
  · unfold calcBoroughBalance; rw [h]

theorem C5_witness :
    calcSocialActivity c1State =
      (c1State, Except.error "Run calculate_park_accessibility() first") ∧
    calcBoroughBalance 3 c1State =
      (c1State, Except.error
        "Run calculate_park_accessibility() and calculate_social_activity() first") :=
  C5_ordering_error c1State 3 rfl

/-- C10: with no `park_type` column the category filter is skipped
entirely (every park, of every category, passes); when the column exists
the filter uses exactly the fixed, non-configurable list
`["Playground", "Undeveloped", "Triangle/Plaza"]`. -/
theorem C10_type_filter :
    (∀ parks : List Park, typeFilter false parks = parks) ∧
    (∀ parks : List Park, typeFilter true parks =
        parks.filter (fun p => !(exclude_types.contains p.parkType))) ∧
    exclude_types = ["Playground", "Undeveloped", "Triangle/Plaza"] :=
  ⟨fun _ => rfl, fun _ => rfl, rfl⟩

/-- C3: the venue quality threshold is NOT caller-supplied — it is the
constant `GRADE_TRESHOLDS = 20` local to `calculate_social_activity`.  A
venue with score 25 does not qualify under the code, although under the
caller-supplied threshold `T = 27` (the default `src/main.py` passes) the
claim says it must count. -/
theorem C3_hardcoded_threshold :
    venueQualifies ⟨0, some 25, (0, 0)⟩ = false ∧
    claimVenueQualifies 27 ⟨0, some 25, (0, 0)⟩ = true ∧
    GRADE_TRESHOLDS = 20 := by
  refine ⟨by decide, by decide, rfl⟩

/-- C2 counterexample: on a run where exactly one site survives filtering,
300 m from the only station, the code assigns `accessibility_score = 0`
(the batch maximum is the site's own distance), not the 100 the claim
requires. -/
theorem C2_counterexample :
    ((calcParkAccessibility colinearDist c2State).2.map (·.accessScore) = [0]) ∧
    (0 : ℚ) ≠ 100 := by
  constructor
  · norm_num +decide [calcParkAccessibility, joinedParks, dropDuplicates, dropDupAux,
      typeFilter, areaFilter, exclude_types, nearestStation, nearestStep, c2State,
      colinearDist, sqDist, parkMax, mkAccPark, accessScoreAt, withinRadius,
      List.filter_cons, List.filterMap_cons, List.foldl_cons]
  · norm_num

/-- C2 (amended): when exactly one site survives filtering, its
`accessibility_score` is 100 only if its nearest-stop distance is 0;
for any positive distance `d` the batch maximum equals `d` itself and the
score is `100 * (1 - d/d) = 0`. -/
theorem C2_single_site (d : ℚ) :
    accessScores [d] = [if 0 < d then 0 else 100] := by
  have h : parkMax [d] = d := rfl
  unfold accessScores
  rw [h]
  by_cases hd : 0 < d
  · simp [accessScoreAt, hd, div_self (ne_of_gt hd)]
  · simp [accessScoreAt, hd]

/-- C1: `calculate_borough_balance` stores the truncated per-borough frame
on `self.parks_with_scores` but *returns* the full pre-truncation frame
(`return parks`, line 233), and `summary` justifies and returns that full
frame.  On a run with two Bronx sites and `top_n_per_borough = 1` the
pipeline's output contains both Bronx sites — more than `top_n_per_group`
per borough, contradicting the claim (and the method's own docstring). -/
theorem C1_returns_full_frame :
    (okRows (summary colinearDist c1State 1).2).map (fun r => r.borough) =
      ["Bronx", "Bronx"] ∧
    1 < (okRows (summary colinearDist c1State 1).2).length := by
  constructor <;>
    norm_num +decide [summary, okRows, calcParkAccessibility, calcSocialActivity,
      calcBoroughBalance, joinedParks, dropDuplicates, dropDupAux, typeFilter,
      areaFilter, exclude_types, nearestStation, nearestStep, c1State, colinearDist,
      sqDist, parkMax, parkMaxNat, mkAccPark, accessScoreAt, withinRadius,
      Working.toAccRows, Working.toSocRows, venueQualifies, GRADE_TRESHOLDS,
      boroughKeys, insertStr, nlargest, sortDesc, insertDesc, seriesMean,
      summaryAvgScore, pyInt,
      List.filter_cons, List.filterMap_cons, List.foldl_cons, List.eraseDups,
      List.flatMap_cons, List.flatMap_nil]

/-- C4 counterexample: a single venue with score 30 inside the radius does
not qualify under the threshold 20, so the claim says the reported mean is
0 — but `summary` computes the mean over `self.restaurants_gdf` with no
quality filter and reports 30. -/
theorem C4_counterexample :
    summaryAvgScore [⟨0, some 30, (0, 0)⟩] (0, 0) 500 = some 30 ∧
    claimAvgQualifying GRADE_TRESHOLDS [⟨0, some 30, (0, 0)⟩] (0, 0) 500 = some 0 ∧
    (30 : ℚ) ≠ 0 := by
  refine ⟨?_, ?_, by norm_num⟩
  · norm_num [summaryAvgScore, withinRadius, sqDist, seriesMean,
      List.filter_cons, List.filterMap_cons]
  · norm_num +decide [claimAvgQualifying, claimVenueQualifies, GRADE_TRESHOLDS,
      withinRadius, sqDist, seriesMean, List.filter_cons, List.filterMap_cons]

/-- C4 (amended): the mean quality score reported in a justification is
the mean over ALL venues within the radius — the quality threshold is not
applied — skipping venues with an absent score; it is 0 exactly when no
venue at all lies within the radius (and NaN when venues are nearby but
none has a score). -/
theorem C4_mean_over_all_nearby (restaurants : List Venue) (c : Pt) (r : ℚ) :
    ((∀ v ∈ restaurants, ¬ (sqDist v.pos c ≤ r ^ 2)) →
        summaryAvgScore restaurants c r = some 0) ∧
    (∀ p : List ℚ,
        p = (restaurants.filter
              (fun v => decide (sqDist v.pos c ≤ r ^ 2))).filterMap Venue.score →
        p ≠ [] →
        summaryAvgScore restaurants c r = some (p.sum / (p.length : ℚ))) := by
  constructor
  · intro h
    unfold summaryAvgScore withinRadius
    have hnil : restaurants.filter (fun v => decide (sqDist v.pos c ≤ r ^ 2)) = [] := by
      rw [List.filter_eq_nil_iff]
      intro v hv
      simpa using h v hv
    rw [hnil]
    simp
  · intro p hp hne
    unfold summaryAvgScore withinRadius seriesMean
    have hmap : ((restaurants.filter
          (fun v => decide (sqDist v.pos c ≤ r ^ 2))).map Venue.score).filterMap id =
        (restaurants.filter
          (fun v => decide (sqDist v.pos c ≤ r ^ 2))).filterMap Venue.score := by
      rw [List.filterMap_map]
      simp
    have hlen : (restaurants.filter
        (fun v => decide (sqDist v.pos c ≤ r ^ 2))).length ≠ 0 := by
      intro h0
      apply hne
      rw [hp, List.length_eq_zero.mp h0]
      rfl
    rw [if_neg hlen, hmap, ← hp]
    rw [if_neg (fun h0 => hne (List.length_eq_zero.mp h0))]

theorem C4_mean_over_all_nearby_witness :
    summaryAvgScore [⟨0, some 28, (0, 0)⟩, ⟨1, none, (0, 1)⟩] (0, 0) 500 = some 28 := by
  have h := (C4_mean_over_all_nearby
      [⟨0, some 28, (0, 0)⟩, ⟨1, none, (0, 1)⟩] (0, 0) 500).2 [28]
    (by norm_num +decide [sqDist, List.filter_cons, List.filterMap_cons])
    (by norm_num)
  rw [h]
  norm_num

/-- C6: the radius query (buffer + intersects, modelled as the closed
disk) returns exactly the stations whose Euclidean distance to the query
point is ≤ the radius, boundary included: for any metric `d` agreeing with
the squared plane distance on the stations involved, membership is
equivalent to `d ≤ r`. -/
theorem C6_closed_disk (stations : List Station) (c : Pt) (r : ℚ) (d : Pt → Pt → ℚ)
    (hr : 0 ≤ r)
    (hd : ∀ st ∈ stations, 0 ≤ d st.pos c ∧ (d st.pos c) ^ 2 = sqDist st.pos c)
    (st : Station) :
    st ∈ withinRadius Station.pos stations c r ↔ st ∈ stations ∧ d st.pos c ≤ r := by
  unfold withinRadius
  rw [List.mem_filter]
  constructor
  · rintro ⟨hmem, hdec⟩
    refine ⟨hmem, ?_⟩
    obtain ⟨h0, hsq⟩ := hd st hmem
    have hb : sqDist st.pos c ≤ r ^ 2 := of_decide_eq_true hdec
    rw [← hsq] at hb
    exact le_of_pow_le_pow_left₀ (by norm_num) hr hb
  · rintro ⟨hmem, hle⟩
    obtain ⟨h0, hsq⟩ := hd st hmem
    refine ⟨hmem, ?_⟩
    rw [decide_eq_true_eq, ← hsq]
    exact pow_le_pow_left₀ h0 hle 2

theorem C6_witness :
    c6Station ∈ withinRadius Station.pos [c6Station] ((0 : ℚ), (0 : ℚ)) 5 := by
  have h := C6_closed_disk [c6Station] ((0 : ℚ), (0 : ℚ)) 5 (fun _ _ => 5)
    (by norm_num)
    (by
      intro st hst
      rcases List.mem_singleton.mp hst with rfl
      exact ⟨by norm_num, by norm_num [sqDist, c6Station]⟩)
    c6Station
  exact h.mpr ⟨List.mem_singleton_self c6Station, by norm_num⟩

/-- C8: with `D` the maximum recorded nearest-stop distance of the run, if
`D > 0` every surviving site scores `100 * (1 - distance / D)`, and if
`D = 0` every surviving site scores 100 — exactly the two branches of
lines 128-134. -/
theorem C8_normalization (dists : List ℚ) (D : ℚ) (hmem : D ∈ dists)
    (hub : ∀ x ∈ dists, x ≤ D) :
    (0 < D → accessScores dists = dists.map (fun x => 100 * (1 - x / D))) ∧
    (D = 0 → accessScores dists = dists.map (fun _ => 100)) := by
  have hne : dists ≠ [] := List.ne_nil_of_mem hmem
  have hD : parkMax dists = D :=
    le_antisymm (hub _ (parkMax_mem dists hne)) (parkMax_ub dists D hmem)
  constructor
  · intro hpos
    unfold accessScores
    rw [hD]
    simp [accessScoreAt, hpos]
  · intro h0
    unfold accessScores
    have hfun : accessScoreAt 0 = fun _ : ℚ => 100 := by
      funext x
      simp [accessScoreAt]
    rw [hD, h0, hfun]

theorem C8_normalization_witness : accessScores [100, 300] = [200 / 3, 0] := by
  have h := (C8_normalization [100, 300] 300 (by decide) (by decide)).1 (by norm_num)
  rw [h]
  norm_num

/-- C9: every row `calculate_park_accessibility` outputs has its nearest
station's id inside its `nearby_station_ids` (the radius of the count
query equals the nearest-join's distance limit), and the length of that
id list equals its `subway_count` (both are built from the same queried
sub-collection). -/
theorem C9_nearest_in_radius (d : Pt → Pt → ℚ) (s : ScorerState) (row : AccPark)
    (h : row ∈ (calcParkAccessibility d s).2) :
    row.nearestId ∈ row.nearbyStationIds ∧
      row.nearbyStationIds.length = row.subwayCount := by
  have h2 : row ∈ (joinedParks s).map
      (mkAccPark d s (parkMax ((joinedParks s).map (fun j => d j.1.pos j.2.pos)))) := h
  rcases List.mem_map.mp h2 with ⟨j, hj, hrow⟩
  subst hrow
  unfold joinedParks at hj
  have hj' := mem_of_mem_dropDuplicates _ _ _ hj
  rcases List.mem_filterMap.mp hj' with ⟨p, hp, hf⟩
  rcases Option.map_eq_some'.mp hf with ⟨st, hst, hpair⟩
  subst hpair
  have hb := nearestStation_bound s.stations p.pos s.maxParkDistance st hst
  constructor
  · show st.id ∈ (withinRadius Station.pos s.stations p.pos s.maxParkDistance).map (·.id)
    apply List.mem_map_of_mem
    unfold withinRadius
    rw [List.mem_filter]
    exact ⟨hb.1, decide_eq_true hb.2⟩
  · show ((withinRadius Station.pos s.stations p.pos s.maxParkDistance).map (·.id)).length =
      (withinRadius Station.pos s.stations p.pos s.maxParkDistance).length
    exact List.length_map _ _

theorem C9_witness :
    c2Row.nearestId ∈ c2Row.nearbyStationIds ∧
      c2Row.nearbyStationIds.length = c2Row.subwayCount :=
  C9_nearest_in_radius colinearDist c2State c2Row (by
    norm_num +decide [calcParkAccessibility, joinedParks, dropDuplicates, dropDupAux,
      typeFilter, areaFilter, exclude_types, nearestStation, nearestStep, c2State,
      colinearDist, sqDist, parkMax, mkAccPark, accessScoreAt, withinRadius, c2Row,
      List.filter_cons, List.filterMap_cons, List.foldl_cons])
